import Mathlib

/-
Verification of the "Remote Call Dispatcher" of the kenya-compliance-via-slade
repository: a shallow embedding of `process_request` and its direct callers
(`kenya_compliance_via_slade/apis/apis.py`), together with proofs of the
specification's testable properties.

Modelling conventions:
* Python values carried through the dispatcher (payloads, headers, response
  bodies) are embedded as the inductive `PyVal`.
* Python exceptions are embedded as `Except PyErr`: a Lean `Except.error`
  models a raised exception propagating out of `process_request`.
* Library and framework helpers that live outside the translated file
  (`json.loads`, `frappe.defaults.get_user_default`, `frappe.get_value`,
  `build_headers`, `get_server_url`, `get_route_path`, `process_dynamic_url`)
  are uninterpreted parameters collected in an `Env` record; theorems
  quantify over them.
* The network and the remote server's answers are modelled as the finite
  list `Env.pages` of per-page outcomes consumed by the pagination loop.
  Observable behaviour (network calls, callback invocations) is recorded as
  a trace of `Event`s.
-/

/-- Embedded Python value: the JSON-like data that flows through the
dispatcher (strings, numbers, booleans, None, dicts, lists). -/
inductive PyVal where
  | str : String → PyVal
  | num : Int → PyVal
  | bool : Bool → PyVal
  | none : PyVal
  | dict : List (String × PyVal) → PyVal
  | list : List PyVal → PyVal

/-- Embedded Python exception kinds that the translated code can raise. -/
inductive PyErr where
  | jsonDecodeError
  | attributeError
  | unboundLocalError
  | typeError
  | keyError
deriving DecidableEq

/-- Callback functions are tracked symbolically: `on_slade_error` is the
module-level error handler hard-wired at apis.py line 134; every
caller-supplied success handler is `handler name`. -/
inductive CB where
  | on_slade_error : CB
  | handler : String → CB
deriving DecidableEq

/-- One page's outcome at the HTTP layer: a 2xx response with parsed body,
or a non-2xx / transport failure with its raw body or error detail. -/
inductive HttpOutcome where
  | ok : PyVal → HttpOutcome
  | err : PyVal → HttpOutcome

/-- Observable events of a dispatch: an outgoing network call, a success
callback invocation, or an error callback invocation. -/
inductive Event where
  | netCall (url : PyVal) (method : String) (payload : PyVal)
  | successCall (cb : CB) (body : PyVal) (documentName : PyVal)
  | errCall (cb : CB) (body : PyVal) (url : PyVal) (doctype : String)
      (documentName : PyVal)

/-- Result of a run of `process_request` that did not raise: the event
trace and the returned message.  `retVal = none` marks a run whose
pagination loop outlived the supplied page budget (the Python loop would
still be running), so no value was returned yet. -/
structure RunResult where
  events : List Event
  retVal : Option String

/-- Python truthiness of an embedded value ("", 0, False, None, empty
dict/list are falsy). -/
def truthy : PyVal → Bool
  | PyVal.str s => !(s == "")
  | PyVal.num n => !(n == 0)
  | PyVal.bool b => b
  | PyVal.none => false
  | PyVal.dict kvs => !kvs.isEmpty
  | PyVal.list xs => !xs.isEmpty

/-- Python truthiness of an optional string (None and "" are falsy), used
for the resolved server URL and route path. -/
def truthyStr : Option String → Bool
  | Option.none => false
  | Option.some s => !(s == "")

/-- First binding of a key in an embedded dict (Python dicts have unique
keys; the association list is read left to right). -/
def dlookup : List (String × PyVal) → String → Option PyVal
  | [], _ => Option.none
  | (k', v) :: rest, k => if k' == k then Option.some v else dlookup rest k

/-- Python `data.get(key, None)`: defaulting lookup on a dict; calling
`.get` on any non-dict raises AttributeError (lists and strings have no
`.get`). -/
def pyGet (v : PyVal) (k : String) : Except PyErr PyVal :=
  match v with
  | PyVal.dict kvs => Except.ok ((dlookup kvs k).getD PyVal.none)
  | _ => Except.error PyErr.attributeError

/-- Total variant of dict lookup used only in theorem statements: the
value a dict holds at a key, `None` when absent. -/
def pyGetD (kvs : List (String × PyVal)) (k : String) : PyVal :=
  (dlookup kvs k).getD PyVal.none

/-- Python `a or b`: the first operand when truthy, otherwise the second. -/
def pyOr (a b : PyVal) : PyVal :=
  if truthy a then a else b

/-- Python `key in data` for the shapes reachable at the strip step of
`process_request`: key membership on a dict, element equality against the
key string on a list.  (At that point `data` is a dict or a non-empty
list; for a string or scalar an earlier `.get` already raised.) -/
def pyContains (v : PyVal) (k : String) : Bool :=
  match v with
  | PyVal.dict kvs => (dlookup kvs k).isSome
  | PyVal.list xs =>
    xs.any (fun x => match x with | PyVal.str s => s == k | _ => false)
  | _ => false

/-- Python `data[key]` with a string key: dict lookup (KeyError when
absent); on a list, string indices raise TypeError. -/
def pySubscript (v : PyVal) (k : String) : Except PyErr PyVal :=
  match v with
  | PyVal.dict kvs =>
    match dlookup kvs k with
    | Option.some x => Except.ok x
    | Option.none => Except.error PyErr.keyError
  | _ => Except.error PyErr.typeError

/-- Python `data.pop(key)` as used after the guards in `process_request`:
removes the key's bindings from a dict; only reached when `data` is a dict
holding the key. -/
def pyPop (v : PyVal) (k : String) : PyVal :=
  match v with
  | PyVal.dict kvs => PyVal.dict (kvs.filter (fun p => !(p.1 == k)))
  | x => x

/-- One bookkeeping-key strip of `process_request` (apis.py 118-119 and
121-122): `if key in data and data[key]: data.pop(key)` — the key is
removed only when present with a truthy value. -/
def stripTruthy (data : PyVal) (key : String) : Except PyErr PyVal :=
  if pyContains data key then
    match pySubscript data key with
    | Except.error e => Except.error e
    | Except.ok v =>
      if truthy v then Except.ok (pyPop data key) else Except.ok data
  else
    Except.ok data

/-- The GET-only payload strip of `process_request` (apis.py 117-122):
for `request_method == "GET"` drop `document_name` then `company_name`
via `stripTruthy`; other methods leave the payload untouched. -/
def stripForGet (request_method : String) (data : PyVal) :
    Except PyErr PyVal :=
  if request_method == "GET" then
    match stripTruthy data "document_name" with
    | Except.error e => Except.error e
    | Except.ok d1 => stripTruthy d1 "company_name"
  else
    Except.ok data

/-- Pagination cursor extraction of `process_request` (apis.py 141-144):
`response["next"]` when the response is a dict containing `"next"`,
otherwise Python `None`. -/
def nextUrl : PyVal → PyVal
  | PyVal.dict kvs =>
    match dlookup kvs "next" with
    | Option.some v => v
    | Option.none => PyVal.none
  | _ => PyVal.none

/-- The value `make_remote_call` hands back to the pagination loop for a
page outcome: the parsed body on success, Python `None` after an error. -/
def respOf : HttpOutcome → PyVal
  | HttpOutcome.ok body => body
  | HttpOutcome.err _ => PyVal.none

/-- Uninterpreted environment of a call: external helpers from outside the
translated file and the remote server's per-page outcomes. -/
structure Env where
  /-- `json.loads`: parse result of a string, `none` when it is not valid
  JSON (in which case Python raises `json.JSONDecodeError`). -/
  jsonLoads : String → Option PyVal
  /-- `frappe.defaults.get_user_default("Company")`. -/
  defaultCompany : PyVal
  /-- `frappe.get_value("Company", ..., "name")` fallback. -/
  fallbackCompany : PyVal
  /-- `frappe.defaults.get_user_default("Branch")`. -/
  defaultBranch : PyVal
  /-- `frappe.get_value("Branch", "name")` fallback. -/
  fallbackBranch : PyVal
  /-- `build_headers(company, branch)`: the auth headers (a dict, or a
  falsy value when credentials are missing). -/
  build_headers : PyVal → PyVal → PyVal
  /-- `get_server_url(company, branch)`: the base server URL string, or
  `none` when unset. -/
  get_server_url : PyVal → PyVal → Option String
  /-- First component of `get_route_path(route_key, "VSCU Slade 360")`:
  the URL path template for the route key, or `none` when unknown. -/
  get_route_path : String → Option String
  /-- `process_dynamic_url(route_path, request_data)`: substitution of
  dynamic path parameters from the payload into the template. -/
  process_dynamic_url : String → PyVal → String
  /-- The remote server's outcome for each successive page request made
  during this dispatch. -/
  pages : List HttpOutcome

/-- Binding of the local `data` in `process_request` (apis.py 80-83): a
str argument is JSON-parsed (raising on invalid JSON), a dict or list is
used as is; any other type leaves `data` unassigned so its first use
raises UnboundLocalError. -/
def resolveData (env : Env) (request_data : PyVal) : Except PyErr PyVal :=
  match request_data with
  | PyVal.str s =>
    match env.jsonLoads s with
    | Option.some v => Except.ok v
    | Option.none => Except.error PyErr.jsonDecodeError
  | PyVal.dict kvs => Except.ok (PyVal.dict kvs)
  | PyVal.list xs => Except.ok (PyVal.list xs)
  | _ => Except.error PyErr.unboundLocalError

/-- Resolution of `(company_name, branch_id, document_name)` in
`process_request` (apis.py 85-109): from the first entry when `data` is a
non-empty list, otherwise from `data` itself (raising AttributeError when
`data` has no `.get`), with user-default and database fallbacks chained
by Python `or`. -/
def resolveIds (env : Env) (data : PyVal) :
    Except PyErr (PyVal × PyVal × PyVal) :=
  match data with
  | PyVal.list (first_entry :: _) =>
    match pyGet first_entry "company_name" with
    | Except.error e => Except.error e
    | Except.ok c =>
      match pyGet first_entry "branch_id" with
      | Except.error e => Except.error e
      | Except.ok b =>
        match pyGet first_entry "document_name" with
        | Except.error e => Except.error e
        | Except.ok d =>
          Except.ok (pyOr c (pyOr env.defaultCompany env.fallbackCompany),
            pyOr b (pyOr env.defaultBranch env.fallbackBranch), d)
  | _ =>
    match pyGet data "company_name" with
    | Except.error e => Except.error e
    | Except.ok c =>
      match pyGet data "branch_id" with
      | Except.error e => Except.error e
      | Except.ok b =>
        match pyGet data "document_name" with
        | Except.error e => Except.error e
        | Except.ok d =>
          Except.ok (pyOr c (pyOr env.defaultCompany env.fallbackCompany),
            pyOr b (pyOr env.defaultBranch env.fallbackBranch), d)

/-- Modelled from the spec: `EndpointsBuilder.make_remote_call`
(`apis/api_builder.py`, a file of this repository not present under
src/).  Per the spec it performs the HTTP call and hands the parsed body
to the success callback, and "On any non-2xx response or transport
failure, invoke `on_error` with the raw response body (or error detail),
the attempted URL, the originating doctype, and the originating document
identifier, then stop following pagination for that call".  A 2xx page
therefore emits the network call and one success-callback invocation and
returns the parsed body; a failing page emits the network call and one
error-callback invocation with (body, url, doctype, document name) and
returns Python `None`, so the caller's pagination check finds no cursor. -/
def make_remote_call (outcome : HttpOutcome)
    (success_callback error_callback : CB) (url : PyVal) (method : String)
    (payload : PyVal) (doctype : String) (document_name : PyVal) :
    List Event × PyVal :=
  match outcome with
  | HttpOutcome.ok body =>
    ([Event.netCall url method payload,
      Event.successCall success_callback body document_name], body)
  | HttpOutcome.err body =>
    ([Event.netCall url method payload,
      Event.errCall error_callback body url doctype document_name],
      PyVal.none)

/-- The `while url:` pagination loop of `process_request` (apis.py
127-144): while the url is truthy, make one remote call (with the builder
fields set to the caller's success handler and the module-level
`on_slade_error`), then continue with `response["next"]` when the
response is a dict holding `"next"`, else stop.  The loop consumes the
environment's page outcomes in order; the Bool is `true` when the loop
exited (url became falsy) and `false` when the page budget ran out with
the loop still going. -/
def paginate (handler_function : CB) (doctype request_method : String)
    (payload document_name : PyVal) :
    List HttpOutcome → PyVal → List Event × Bool
  | [], url => if truthy url then ([], false) else ([], true)
  | pg :: rest, url =>
    if truthy url then
      let step := make_remote_call pg handler_function CB.on_slade_error
        url request_method payload doctype document_name
      let tail := paginate handler_function doctype request_method payload
        document_name rest (nextUrl step.2)
      (step.1 ++ tail.1, tail.2)
    else ([], true)

/-- Shallow embedding of `process_request` (apis.py 72-148), in source
order: bind `data`; resolve company/branch/document identifiers; resolve
headers, server URL and route path (with dynamic-url substitution); strip
bookkeeping keys for GET; then either run the pagination loop and return
the success message, or return the missing-configuration message without
any network call. -/
def process_request (env : Env) (request_data : PyVal) (route_key : String)
    (handler_function : CB) (request_method : String) (doctype : String) :
    Except PyErr RunResult :=
  match resolveData env request_data with
  | Except.error e => Except.error e
  | Except.ok data =>
    match resolveIds env data with
    | Except.error e => Except.error e
    | Except.ok (company_name, branch_id, document_name) =>
      let headers := env.build_headers company_name branch_id
      let server_url := env.get_server_url company_name branch_id
      let route_path := (env.get_route_path route_key).map
        (fun template => env.process_dynamic_url template request_data)
      match stripForGet request_method data with
      | Except.error e => Except.error e
      | Except.ok payload =>
        if truthy headers && truthyStr server_url && truthyStr route_path
        then
          let url := PyVal.str (server_url.getD "" ++ route_path.getD "")
          let run := paginate handler_function doctype request_method
            payload document_name env.pages url
          Except.ok ⟨run.1,
            if run.2 then Option.some (route_key ++ " completed successfully.")
            else Option.none⟩
        else
          Except.ok ⟨[], Option.some ("Failed to process " ++ route_key ++
            ". Missing required configuration.")⟩

/-- The parameter names of `process_request` (apis.py 72-78). -/
def process_request_params : List String :=
  ["request_data", "route_key", "handler_function", "request_method",
   "doctype"]

/-- Python keyword-argument binding: a call raises TypeError, before the
callee's body runs, when some keyword is not among the callee's parameter
names. -/
def acceptsKeywords (params kwargs : List String) : Bool :=
  kwargs.all (fun k => params.contains k)

/-- The keyword arguments used by `update_imported_item_request` in its
call to `process_request` (apis.py 539-545). -/
def update_imported_item_request_kwargs : List String :=
  ["method", "doctype"]

/-- Shallow embedding of `update_imported_item_request` (apis.py
537-545): it invokes `process_request` with keywords `method="PUT"` and
`doctype="Item"`; since `method` is not a parameter of `process_request`,
Python's call binding raises TypeError before the body runs. -/
def update_imported_item_request (env : Env) (request_data : PyVal) :
    Except PyErr RunResult :=
  if acceptsKeywords process_request_params update_imported_item_request_kwargs
  then
    process_request env request_data "ImportItemUpdateReq"
      (CB.handler "imported_item_submission_on_success") "PUT" "Item"
  else
    Except.error PyErr.typeError

/-- Event classifier: outgoing network call. -/
def isNet : Event → Bool
  | Event.netCall _ _ _ => true
  | _ => false

/-- Event classifier: success-callback invocation. -/
def isSucc : Event → Bool
  | Event.successCall _ _ _ => true
  | _ => false

/-- Event classifier: error-callback invocation. -/
def isErr : Event → Bool
  | Event.errCall _ _ _ _ _ => true
  | _ => false

/-- Number of network calls in a trace. -/
def countNet (evs : List Event) : Nat := (evs.filter isNet).length

/-- Number of success-callback invocations in a trace. -/
def countSucc (evs : List Event) : Nat := (evs.filter isSucc).length

/-- Number of error-callback invocations in a trace. -/
def countErr (evs : List Event) : Nat := (evs.filter isErr).length

/-- A trace is well paired when it is a sequence of network calls each
immediately followed by exactly one callback invocation. -/
def wellPaired : List Event → Bool
  | [] => true
  | Event.netCall _ _ _ :: e :: rest => (isSucc e || isErr e) && wellPaired rest
  | _ => false

/-- A trace in which any error-callback invocation is the final event:
nothing (in particular no further network call) happens after an error. -/
def errAtEndOnly : List Event → Bool
  | [] => true
  | e :: rest => if isErr e then rest.isEmpty else errAtEndOnly rest

lemma append_ne_empty (s t : String) (h : s ≠ "") : s ++ t ≠ "" := by
  intro he
  apply h
  have hl : (s ++ t).length = "".length := congrArg String.length he
  rw [String.length_append] at hl
  have h0 : "".length = 0 := rfl
  rw [h0] at hl
  have hs : s.length = 0 := by omega
  exact String.ext (List.length_eq_zero.mp hs)

lemma truthy_url_of (su rp : Option String) (h : truthyStr su = true) :
    truthy (PyVal.str (su.getD "" ++ rp.getD "")) = true := by
  cases su with
  | none => simp [truthyStr] at h
  | some s =>
    have hs : s ≠ "" := by simpa [truthyStr] using h
    simp only [Option.getD, truthy]
    simpa using append_ne_empty s (rp.getD "") hs

lemma make_remote_call_snd (pg : HttpOutcome) (sc ec : CB) (url : PyVal)
    (m : String) (p : PyVal) (dt : String) (dn : PyVal) :
    (make_remote_call pg sc ec url m p dt dn).2 = respOf pg := by
  cases pg <;> rfl

lemma paginate_stop (hf : CB) (dt m : String) (p dn : PyVal)
    (pages : List HttpOutcome) (url : PyVal) (h : truthy url = false) :
    paginate hf dt m p dn pages url = ([], true) := by
  cases pages <;> simp [paginate, h]

lemma paginate_counts (hf : CB) (dt m : String) (p dn : PyVal)
    (pages : List HttpOutcome) : ∀ url : PyVal,
    countSucc (paginate hf dt m p dn pages url).1 +
      countErr (paginate hf dt m p dn pages url).1 =
      countNet (paginate hf dt m p dn pages url).1 := by
  induction pages with
  | nil =>
    intro url
    cases h : truthy url <;>
      simp [paginate, h, countSucc, countErr, countNet]
  | cons pg rest ih =>
    intro url
    cases h : truthy url with
    | false =>
      simp [paginate_stop hf dt m p dn _ url h, countSucc, countErr, countNet]
    | true =>
      cases pg with
      | ok body =>
        have hih := ih (nextUrl body)
        simp only [countSucc, countErr, countNet] at hih
        simp [paginate, h, make_remote_call, isNet, isSucc, isErr,
          List.filter_append, countSucc, countErr, countNet]
        omega
      | err body =>
        have hih := ih (nextUrl PyVal.none)
        simp only [countSucc, countErr, countNet] at hih
        simp [paginate, h, make_remote_call, isNet, isSucc, isErr,
          List.filter_append, countSucc, countErr, countNet]
        omega

lemma paginate_pairs (hf : CB) (dt m : String) (p dn : PyVal)
    (pages : List HttpOutcome) : ∀ url : PyVal,
    wellPaired (paginate hf dt m p dn pages url).1 = true := by
  induction pages with
  | nil =>
    intro url
    cases h : truthy url <;> simp [paginate, h, wellPaired]
  | cons pg rest ih =>
    intro url
    cases h : truthy url with
    | false => simp [paginate_stop hf dt m p dn _ url h, wellPaired]
    | true =>
      cases pg <;>
        simp [paginate, h, make_remote_call, wellPaired, isSucc, isErr] <;>
        exact ih _

lemma paginate_err_last (hf : CB) (dt m : String) (p dn : PyVal)
    (pages : List HttpOutcome) : ∀ url : PyVal,
    errAtEndOnly (paginate hf dt m p dn pages url).1 = true := by
  induction pages with
  | nil =>
    intro url
    cases h : truthy url <;> simp [paginate, h, errAtEndOnly]
  | cons pg rest ih =>
    intro url
    cases h : truthy url with
    | false => simp [paginate_stop hf dt m p dn _ url h, errAtEndOnly]
    | true =>
      cases pg with
      | ok body =>
        simp [paginate, h, make_remote_call, errAtEndOnly, isErr]
        exact ih _
      | err body =>
        have hstop : paginate hf dt m p dn rest (nextUrl PyVal.none) =
            ([], true) :=
          paginate_stop hf dt m p dn rest _ (by simp [nextUrl, truthy])
        simp [paginate, h, make_remote_call, hstop, errAtEndOnly, isErr]

lemma paginate_err_mem (hf : CB) (dt m : String) (p dn : PyVal)
    (pages : List HttpOutcome) : ∀ (url : PyVal) (cb : CB) (bb u : PyVal)
    (d : String) (n : PyVal),
    Event.errCall cb bb u d n ∈ (paginate hf dt m p dn pages url).1 →
    cb = CB.on_slade_error ∧ d = dt ∧ n = dn ∧ HttpOutcome.err bb ∈ pages := by
  induction pages with
  | nil =>
    intro url cb bb u d n hmem
    cases h : truthy url <;> simp [paginate, h] at hmem
  | cons pg rest ih =>
    intro url cb bb u d n hmem
    cases h : truthy url with
    | false => simp [paginate_stop hf dt m p dn _ url h] at hmem
    | true =>
      cases pg with
      | ok body =>
        simp only [paginate, h, make_remote_call, if_true, List.cons_append,
          List.nil_append, List.mem_cons] at hmem
        rcases hmem with h1 | h1 | h1
        · exact absurd h1 (by simp)
        · exact absurd h1 (by simp)
        · obtain ⟨hc, hd, hn, hp⟩ := ih _ cb bb u d n h1
          exact ⟨hc, hd, hn, List.mem_cons_of_mem _ hp⟩
      | err body =>
        simp only [paginate, h, make_remote_call, if_true, List.cons_append,
          List.nil_append, List.mem_cons] at hmem
        rcases hmem with h1 | h1 | h1
        · exact absurd h1 (by simp)
        · rw [Event.errCall.injEq] at h1
          obtain ⟨hc, hb, hu, hd, hn⟩ := h1
          exact ⟨hc, hd, hn, by rw [hb]; exact List.mem_cons_self _ _⟩
        · obtain ⟨hc, hd, hn, hp⟩ := ih _ cb bb u d n h1
          exact ⟨hc, hd, hn, List.mem_cons_of_mem _ hp⟩

lemma paginate_succ_mem (hf : CB) (dt m : String) (p dn : PyVal)
    (pages : List HttpOutcome) : ∀ (url : PyVal) (cb : CB) (bb n : PyVal),
    Event.successCall cb bb n ∈ (paginate hf dt m p dn pages url).1 →
    cb = hf ∧ n = dn ∧ HttpOutcome.ok bb ∈ pages := by
  induction pages with
  | nil =>
    intro url cb bb n hmem
    cases h : truthy url <;> simp [paginate, h] at hmem
  | cons pg rest ih =>
    intro url cb bb n hmem
    cases h : truthy url with
    | false => simp [paginate_stop hf dt m p dn _ url h] at hmem
    | true =>
      cases pg with
      | ok body =>
        simp only [paginate, h, make_remote_call, if_true, List.cons_append,
          List.nil_append, List.mem_cons] at hmem
        rcases hmem with h1 | h1 | h1
        · exact absurd h1 (by simp)
        · rw [Event.successCall.injEq] at h1
          obtain ⟨hc, hb, hn⟩ := h1
          exact ⟨hc, hn, by rw [hb]; exact List.mem_cons_self _ _⟩
        · obtain ⟨hc, hn, hp⟩ := ih _ cb bb n h1
          exact ⟨hc, hn, List.mem_cons_of_mem _ hp⟩
      | err body =>
        simp only [paginate, h, make_remote_call, if_true, List.cons_append,
          List.nil_append, List.mem_cons] at hmem
        rcases hmem with h1 | h1 | h1
        · exact absurd h1 (by simp)
        · exact absurd h1 (by simp)
        · obtain ⟨hc, hn, hp⟩ := ih _ cb bb n h1
          exact ⟨hc, hn, List.mem_cons_of_mem _ hp⟩

lemma dlookup_filter_self (kvs : List (String × PyVal)) (k : String) :
    dlookup (kvs.filter (fun p => !(p.1 == k))) k = Option.none := by
  induction kvs with
  | nil => rfl
  | cons hd tl ih =>
    obtain ⟨k', v⟩ := hd
    by_cases h : k' = k
    · simpa [List.filter_cons, h] using ih
    · simpa [List.filter_cons, h, dlookup] using ih

lemma dlookup_filter_ne (kvs : List (String × PyVal)) (k k2 : String)
    (hk : k2 ≠ k) :
    dlookup (kvs.filter (fun p => !(p.1 == k))) k2 = dlookup kvs k2 := by
  induction kvs with
  | nil => rfl
  | cons hd tl ih =>
    obtain ⟨k', v⟩ := hd
    by_cases h : k' = k
    · have h2 : (k' == k2) = false := by
        apply beq_eq_false_iff_ne.mpr
        intro hc
        exact hk (by rw [← hc, h])
      have h1 : (!(k' == k)) = false := by simp [h]
      simp [List.filter_cons, h1, dlookup, h2, ih]
    · have h1 : (!(k' == k)) = true := by simp [h]
      by_cases h2 : k' = k2
      · simp [List.filter_cons, h1, dlookup, h2, hk]
      · simp [List.filter_cons, h1, dlookup, h2, ih]

lemma stripTruthy_dict (kvs : List (String × PyVal)) (k : String) :
    ∃ kvs', stripTruthy (PyVal.dict kvs) k = Except.ok (PyVal.dict kvs') ∧
      (dlookup kvs' k).isSome =
        ((dlookup kvs k).isSome && !truthy (pyGetD kvs k)) ∧
      ∀ k2, k2 ≠ k → dlookup kvs' k2 = dlookup kvs k2 := by
  cases hl : dlookup kvs k with
  | none =>
    refine ⟨kvs, ?_, ?_, fun k2 _ => rfl⟩
    · simp [stripTruthy, pyContains, hl]
    · simp [hl]
  | some v =>
    cases hv : truthy v with
    | false =>
      refine ⟨kvs, ?_, ?_, fun k2 _ => rfl⟩
      · simp [stripTruthy, pyContains, pySubscript, hl, hv]
      · simp [hl, pyGetD, hv]
    | true =>
      refine ⟨kvs.filter (fun p => !(p.1 == k)), ?_, ?_, ?_⟩
      · simp [stripTruthy, pyContains, pySubscript, hl, hv, pyPop]
      · simp [dlookup_filter_self, hl, pyGetD, hv]
      · intro k2 hk2
        exact dlookup_filter_ne kvs k k2 hk2

lemma stripForGet_dict (kvs : List (String × PyVal)) :
    ∃ kvs', stripForGet "GET" (PyVal.dict kvs) = Except.ok (PyVal.dict kvs') ∧
      (dlookup kvs' "document_name").isSome =
        ((dlookup kvs "document_name").isSome &&
          !truthy (pyGetD kvs "document_name")) ∧
      (dlookup kvs' "company_name").isSome =
        ((dlookup kvs "company_name").isSome &&
          !truthy (pyGetD kvs "company_name")) := by
  obtain ⟨k1, h1, h1d, h1p⟩ := stripTruthy_dict kvs "document_name"
  obtain ⟨k2, h2, h2c, h2p⟩ := stripTruthy_dict k1 "company_name"
  refine ⟨k2, ?_, ?_, ?_⟩
  · simp [stripForGet, h1, h2]
  · rw [h2p "document_name" (by decide)]
    exact h1d
  · rw [h2c, h1p "company_name" (by decide)]
    have : pyGetD k1 "company_name" = pyGetD kvs "company_name" := by
      simp [pyGetD, h1p "company_name" (by decide)]
    rw [this]

lemma paginate_net_mem (hf : CB) (dt m : String) (p dn : PyVal)
    (pages : List HttpOutcome) : ∀ (url u : PyVal) (mm : String) (pp : PyVal),
    Event.netCall u mm pp ∈ (paginate hf dt m p dn pages url).1 →
    pp = p ∧ mm = m := by
  induction pages with
  | nil =>
    intro url u mm pp hmem
    cases h : truthy url <;> simp [paginate, h] at hmem
  | cons pg rest ih =>
    intro url u mm pp hmem
    cases h : truthy url with
    | false => simp [paginate_stop hf dt m p dn _ url h] at hmem
    | true =>
      cases pg with
      | ok body =>
        simp only [paginate, h, make_remote_call, if_true, List.cons_append,
          List.nil_append, List.mem_cons] at hmem
        rcases hmem with h1 | h1 | h1
        · rw [Event.netCall.injEq] at h1
          exact ⟨h1.2.2, h1.2.1⟩
        · exact absurd h1 (by simp)
        · exact ih _ u mm pp h1
      | err body =>
        simp only [paginate, h, make_remote_call, if_true, List.cons_append,
          List.nil_append, List.mem_cons] at hmem
        rcases hmem with h1 | h1 | h1
        · rw [Event.netCall.injEq] at h1
          exact ⟨h1.2.2, h1.2.1⟩
        · exact absurd h1 (by simp)
        · exact ih _ u mm pp h1

lemma paginate_one_page (hf : CB) (dt m : String) (p dn : PyVal)
    (pg : HttpOutcome) (rest : List HttpOutcome) (url : PyVal)
    (hu : truthy url = true)
    (hnext : truthy (nextUrl (respOf pg)) = false) :
    countNet (paginate hf dt m p dn (pg :: rest) url).1 = 1 := by
  have hstop := paginate_stop hf dt m p dn rest (nextUrl (respOf pg)) hnext
  cases pg with
  | ok body =>
    simp only [respOf] at hstop
    simp [paginate, hu, make_remote_call, hstop, countNet, isNet]
  | err body =>
    simp only [respOf] at hstop
    simp [paginate, hu, make_remote_call, hstop, countNet, isNet]

lemma paginate_first_err (hf : CB) (dt m : String) (p dn bb : PyVal)
    (rest : List HttpOutcome) (url : PyVal) (hu : truthy url = true) :
    (paginate hf dt m p dn (HttpOutcome.err bb :: rest) url).1 =
      [Event.netCall url m p,
       Event.errCall CB.on_slade_error bb url dt dn] := by
  have hstop := paginate_stop hf dt m p dn rest (nextUrl PyVal.none)
    (by simp [nextUrl, truthy])
  simp [paginate, hu, make_remote_call, hstop]

/-- The resolved route path of a call: the route key's template with
dynamic segments substituted from the request data. -/
def routePathOf (env : Env) (route_key : String) (request_data : PyVal) :
    Option String :=
  (env.get_route_path route_key).map
    (fun template => env.process_dynamic_url template request_data)

/-- The configuration check of apis.py line 124 on the resolved values. -/
def configOk (env : Env) (route_key : String) (request_data c b : PyVal) :
    Bool :=
  truthy (env.build_headers c b) && truthyStr (env.get_server_url c b) &&
    truthyStr (routePathOf env route_key request_data)

/-- The initial URL of the pagination loop: base server URL concatenated
with the resolved route path. -/
def initialUrl (env : Env) (route_key : String) (request_data c b : PyVal) :
    PyVal :=
  PyVal.str ((env.get_server_url c b).getD "" ++
    (routePathOf env route_key request_data).getD "")

lemma run_with_config (env : Env) (rd : PyVal) (rk : String) (hf : CB)
    (m dt : String) (data c b dn payload : PyVal)
    (hdata : resolveData env rd = Except.ok data)
    (hids : resolveIds env data = Except.ok (c, b, dn))
    (hstrip : stripForGet m data = Except.ok payload)
    (hcfg : configOk env rk rd c b = true) :
    process_request env rd rk hf m dt =
      Except.ok ⟨(paginate hf dt m payload dn env.pages
          (initialUrl env rk rd c b)).1,
        if (paginate hf dt m payload dn env.pages
            (initialUrl env rk rd c b)).2
        then Option.some (rk ++ " completed successfully.")
        else Option.none⟩ := by
  unfold process_request
  simp only [configOk, routePathOf, initialUrl] at hcfg ⊢
  simp only [hdata, hids, hstrip, hcfg]
  simp

lemma run_missing_config (env : Env) (rd : PyVal) (rk : String) (hf : CB)
    (m dt : String) (data c b dn payload : PyVal)
    (hdata : resolveData env rd = Except.ok data)
    (hids : resolveIds env data = Except.ok (c, b, dn))
    (hstrip : stripForGet m data = Except.ok payload)
    (hcfg : configOk env rk rd c b = false) :
    process_request env rd rk hf m dt =
      Except.ok ⟨[], Option.some ("Failed to process " ++ rk ++
        ". Missing required configuration.")⟩ := by
  unfold process_request
  simp only [configOk, routePathOf, initialUrl] at hcfg ⊢
  simp only [hdata, hids, hstrip, hcfg]
  simp

lemma truthy_initialUrl (env : Env) (rk : String) (rd c b : PyVal)
    (hcfg : configOk env rk rd c b = true) :
    truthy (initialUrl env rk rd c b) = true := by
  simp only [configOk, Bool.and_eq_true] at hcfg
  exact truthy_url_of _ _ hcfg.1.2

lemma run_events_shape (env : Env) (rd : PyVal) (rk : String) (hf : CB)
    (m dt : String) (r : RunResult)
    (hrun : process_request env rd rk hf m dt = Except.ok r) :
    r.events = [] ∨
    ∃ payload dn url, r.events =
      (paginate hf dt m payload dn env.pages url).1 := by
  cases hd : resolveData env rd with
  | error e =>
    unfold process_request at hrun
    simp only [hd] at hrun
    exact Except.noConfusion hrun
  | ok data =>
    cases hi : resolveIds env data with
    | error e =>
      unfold process_request at hrun
      simp only [hd, hi] at hrun
      exact Except.noConfusion hrun
    | ok trip =>
      obtain ⟨c, b, dn⟩ := trip
      cases hs : stripForGet m data with
      | error e =>
        unfold process_request at hrun
        simp only [hd, hi, hs] at hrun
        exact Except.noConfusion hrun
      | ok payload =>
        cases hc : configOk env rk rd c b with
        | true =>
          rw [run_with_config env rd rk hf m dt data c b dn payload
            hd hi hs hc] at hrun
          injection hrun with hr
          right
          exact ⟨payload, dn, initialUrl env rk rd c b, by rw [← hr]⟩
        | false =>
          rw [run_missing_config env rd rk hf m dt data c b dn payload
            hd hi hs hc] at hrun
          injection hrun with hr
          left
          rw [← hr]

/-- Auth headers used by the concrete test environments. -/
def testHeaders : PyVal :=
  PyVal.dict [("Authorization", PyVal.str "Bearer token")]

/-- Error body used by the concrete error-page environment. -/
def errBody : PyVal :=
  PyVal.dict [("detail", PyVal.str "invalid pin")]

/-- Concrete environment whose credentials are missing: `build_headers`
resolves to Python `None` while server URL and route path resolve
normally. -/
def envMissingHeaders : Env :=
  ⟨fun _ => Option.none,
   PyVal.str "DefaultCo", PyVal.none, PyVal.str "BR1", PyVal.none,
   fun _ _ => PyVal.none,
   fun _ _ => Option.some "https://slade.example",
   fun _ => Option.some "/items",
   fun template _ => template,
   []⟩

/-- Concrete environment with valid credentials whose single page succeeds
with an empty-dict body (no pagination cursor). -/
def envOnePage : Env :=
  ⟨fun _ => Option.none,
   PyVal.str "DefaultCo", PyVal.none, PyVal.str "BR1", PyVal.none,
   fun _ _ => testHeaders,
   fun _ _ => Option.some "https://slade.example",
   fun _ => Option.some "/items",
   fun template _ => template,
   [HttpOutcome.ok (PyVal.dict [])]⟩

/-- Concrete environment with valid credentials whose single page fails
with a 400-style body. -/
def envErrPage : Env :=
  ⟨fun _ => Option.none,
   PyVal.str "DefaultCo", PyVal.none, PyVal.str "BR1", PyVal.none,
   fun _ _ => testHeaders,
   fun _ _ => Option.some "https://slade.example",
   fun _ => Option.some "/items",
   fun template _ => template,
   [HttpOutcome.err errBody]⟩

/-- A GET payload that defeats the claimed unconditional strip: it is a
sequence whose first entry is a mapping and which also contains the
literal string "document_name" as an element. -/
def c1BadPayload : PyVal :=
  PyVal.list [PyVal.dict [], PyVal.str "document_name"]

/-- Claim C1 counterexample: a call whose resolved auth headers are falsy
(so the claim promises the missing-configuration string and no raise),
yet `process_request` raises TypeError: with a GET method and a sequence
payload containing the literal string "document_name", the bookkeeping
strip evaluates a string subscript on a list before the configuration
check is ever reached. -/
theorem c1_counterexample :
    resolveIds envMissingHeaders c1BadPayload =
      Except.ok (PyVal.str "DefaultCo", PyVal.str "BR1", PyVal.none) ∧
    truthy (envMissingHeaders.build_headers (PyVal.str "DefaultCo")
      (PyVal.str "BR1")) = false ∧
    process_request envMissingHeaders c1BadPayload "ItemSearchReq"
      (CB.handler "item_search_on_success") "GET" "Item" =
      Except.error PyErr.typeError :=
  ⟨rfl, rfl, rfl⟩

/-- Claim C1 (amended): for every call whose data binding, identifier
resolution and GET bookkeeping-strip succeed (the strip can itself raise,
see the counterexample) and whose resolved auth headers, server URL, or
route path is falsy, `process_request` performs no network call, invokes
no callback, does not raise, and returns the failure string naming the
route key. -/
theorem c1_missing_config (env : Env) (rd : PyVal) (rk : String) (hf : CB)
    (m dt : String) (data c b dn payload : PyVal)
    (hdata : resolveData env rd = Except.ok data)
    (hids : resolveIds env data = Except.ok (c, b, dn))
    (hstrip : stripForGet m data = Except.ok payload)
    (hcfg : configOk env rk rd c b = false) :
    process_request env rd rk hf m dt =
      Except.ok ⟨[], Option.some ("Failed to process " ++ rk ++
        ". Missing required configuration.")⟩ :=
  run_missing_config env rd rk hf m dt data c b dn payload hdata hids
    hstrip hcfg

/-- Claim C1 witness: the amended theorem applied to a concrete call with
falsy headers: empty event trace (no network call, no callback) and the
exact failure message. -/
theorem c1_missing_config_witness :
    process_request envMissingHeaders
      (PyVal.dict [("company_name", PyVal.str "Acme")]) "ItemSearchReq"
      (CB.handler "item_search_on_success") "GET" "Item" =
      Except.ok ⟨[], Option.some
        "Failed to process ItemSearchReq. Missing required configuration."⟩ :=
  c1_missing_config envMissingHeaders
    (PyVal.dict [("company_name", PyVal.str "Acme")]) "ItemSearchReq"
    (CB.handler "item_search_on_success") "GET" "Item"
    (PyVal.dict [("company_name", PyVal.str "Acme")]) (PyVal.str "Acme")
    (PyVal.str "BR1") PyVal.none (PyVal.dict []) rfl rfl rfl rfl

/-- A GET payload holding a bookkeeping key with a falsy value. -/
def c2Payload : PyVal :=
  PyVal.dict [("company_name", PyVal.str "Acme"),
    ("document_name", PyVal.str "")]

/-- Claim C2 counterexample: a GET dispatch whose input payload holds
"document_name" with an empty-string value; the outgoing payload handed
to the remote call still contains that bookkeeping key, because the code
strips a key only when its value is truthy. -/
theorem c2_counterexample :
    process_request envOnePage c2Payload "ItemSearchReq"
      (CB.handler "item_search_on_success") "GET" "Item" =
      Except.ok ⟨[Event.netCall (PyVal.str "https://slade.example/items")
          "GET" (PyVal.dict [("document_name", PyVal.str "")]),
        Event.successCall (CB.handler "item_search_on_success")
          (PyVal.dict []) (PyVal.str "")],
        Option.some "ItemSearchReq completed successfully."⟩ ∧
    pyContains (PyVal.dict [("document_name", PyVal.str "")])
      "document_name" = true :=
  ⟨rfl, rfl⟩

/-- Claim C2 (amended): for every GET dispatch with a mapping payload,
each bookkeeping key ("document_name", "company_name") is present in the
outgoing payload handed to every remote call exactly when the input held
it with a falsy value; keys held with truthy values are stripped.  In
particular the concrete scenario of the claim (both values truthy) yields
an empty outgoing payload. -/
theorem c2_get_strip (env : Env) (rd : PyVal) (rk : String) (hf : CB)
    (dt : String) (kvs : List (String × PyVal)) (c b dn : PyVal)
    (hdata : resolveData env rd = Except.ok (PyVal.dict kvs))
    (hids : resolveIds env (PyVal.dict kvs) = Except.ok (c, b, dn))
    (hcfg : configOk env rk rd c b = true) :
    ∃ kvs',
      stripForGet "GET" (PyVal.dict kvs) = Except.ok (PyVal.dict kvs') ∧
      pyContains (PyVal.dict kvs') "document_name" =
        (pyContains (PyVal.dict kvs) "document_name" &&
          !truthy (pyGetD kvs "document_name")) ∧
      pyContains (PyVal.dict kvs') "company_name" =
        (pyContains (PyVal.dict kvs) "company_name" &&
          !truthy (pyGetD kvs "company_name")) ∧
      ∀ r, process_request env rd rk hf "GET" dt = Except.ok r →
        ∀ u mm pp, Event.netCall u mm pp ∈ r.events →
          pp = PyVal.dict kvs' ∧ mm = "GET" := by
  obtain ⟨kvs', hstrip, hdoc, hcomp⟩ := stripForGet_dict kvs
  refine ⟨kvs', hstrip, ?_, ?_, ?_⟩
  · simpa [pyContains] using hdoc
  · simpa [pyContains] using hcomp
  · intro r hrun u mm pp hmem
    rw [run_with_config env rd rk hf "GET" dt (PyVal.dict kvs) c b dn
      (PyVal.dict kvs') hdata hids hstrip hcfg] at hrun
    injection hrun with hr
    rw [← hr] at hmem
    exact paginate_net_mem hf dt "GET" (PyVal.dict kvs') dn env.pages _
      u mm pp hmem

/-- Claim C2 witness: the amended theorem at the claim's concrete
scenario — payload with company name "Acme" and document name "ITEM-001"
under GET — both keys are stripped from the outgoing payload. -/
theorem c2_get_strip_witness :
    ∃ kvs',
      stripForGet "GET" (PyVal.dict [("company_name", PyVal.str "Acme"),
        ("document_name", PyVal.str "ITEM-001")]) =
        Except.ok (PyVal.dict kvs') ∧
      pyContains (PyVal.dict kvs') "document_name" =
        (pyContains (PyVal.dict [("company_name", PyVal.str "Acme"),
            ("document_name", PyVal.str "ITEM-001")]) "document_name" &&
          !truthy (pyGetD [("company_name", PyVal.str "Acme"),
            ("document_name", PyVal.str "ITEM-001")] "document_name")) ∧
      pyContains (PyVal.dict kvs') "company_name" =
        (pyContains (PyVal.dict [("company_name", PyVal.str "Acme"),
            ("document_name", PyVal.str "ITEM-001")]) "company_name" &&
          !truthy (pyGetD [("company_name", PyVal.str "Acme"),
            ("document_name", PyVal.str "ITEM-001")] "company_name")) ∧
      ∀ r, process_request envOnePage
          (PyVal.dict [("company_name", PyVal.str "Acme"),
            ("document_name", PyVal.str "ITEM-001")]) "ItemSearchReq"
          (CB.handler "item_search_on_success") "GET" "Item" =
          Except.ok r →
        ∀ u mm pp, Event.netCall u mm pp ∈ r.events →
          pp = PyVal.dict kvs' ∧ mm = "GET" :=
  c2_get_strip envOnePage
    (PyVal.dict [("company_name", PyVal.str "Acme"),
      ("document_name", PyVal.str "ITEM-001")]) "ItemSearchReq"
    (CB.handler "item_search_on_success") "Item"
    [("company_name", PyVal.str "Acme"),
      ("document_name", PyVal.str "ITEM-001")]
    (PyVal.str "Acme") (PyVal.str "BR1") (PyVal.str "ITEM-001")
    rfl rfl rfl

/-- Claim C3 (confirmed): for every dispatch whose first page's response,
as seen by the loop, carries no truthy "next" cursor (a mapping lacking
"next", a mapping with a falsy "next", or a non-mapping response), the
pagination loop terminates after exactly one page: exactly one network
call happens. -/
theorem c3_single_page (env : Env) (rd : PyVal) (rk : String) (hf : CB)
    (m dt : String) (data c b dn payload : PyVal) (pg : HttpOutcome)
    (rest : List HttpOutcome)
    (hdata : resolveData env rd = Except.ok data)
    (hids : resolveIds env data = Except.ok (c, b, dn))
    (hstrip : stripForGet m data = Except.ok payload)
    (hcfg : configOk env rk rd c b = true)
    (hpages : env.pages = pg :: rest)
    (hnext : truthy (nextUrl (respOf pg)) = false) :
    ∃ r, process_request env rd rk hf m dt = Except.ok r ∧
      countNet r.events = 1 := by
  refine ⟨_, run_with_config env rd rk hf m dt data c b dn payload hdata
    hids hstrip hcfg, ?_⟩
  show countNet (paginate hf dt m payload dn env.pages
    (initialUrl env rk rd c b)).1 = 1
  rw [hpages]
  exact paginate_one_page hf dt m payload dn pg rest _
    (truthy_initialUrl env rk rd c b hcfg) hnext

/-- Claim C3 witness: the theorem at a concrete dispatch whose only page
is a mapping without a "next" key — exactly one network call. -/
theorem c3_single_page_witness :
    ∃ r, process_request envOnePage (PyVal.dict []) "ItemSearchReq"
        (CB.handler "item_search_on_success") "POST" "Item" =
        Except.ok r ∧ countNet r.events = 1 :=
  c3_single_page envOnePage (PyVal.dict []) "ItemSearchReq"
    (CB.handler "item_search_on_success") "POST" "Item"
    (PyVal.dict []) (PyVal.str "DefaultCo") (PyVal.str "BR1") PyVal.none
    (PyVal.dict []) (HttpOutcome.ok (PyVal.dict [])) []
    rfl rfl rfl rfl rfl rfl

/-- Claim C4 (confirmed): in every run of `process_request` that returns,
each network call is immediately followed by exactly one callback
invocation — success or error, never both, never neither — so callbacks
and pages fetched are in bijection. -/
theorem c4_exactly_one_callback (env : Env) (rd : PyVal) (rk : String)
    (hf : CB) (m dt : String) (r : RunResult)
    (hrun : process_request env rd rk hf m dt = Except.ok r) :
    wellPaired r.events = true ∧
    countSucc r.events + countErr r.events = countNet r.events := by
  rcases run_events_shape env rd rk hf m dt r hrun with h | ⟨p, dn, url, h⟩
  · rw [h]
    exact ⟨rfl, rfl⟩
  · rw [h]
    exact ⟨paginate_pairs hf dt m p dn env.pages url,
      paginate_counts hf dt m p dn env.pages url⟩

/-- The run of `process_request` on `envOnePage` with an empty POST
payload: one page fetched, one success callback. -/
def c4Run : RunResult :=
  ⟨[Event.netCall (PyVal.str "https://slade.example/items") "POST"
      (PyVal.dict []),
    Event.successCall (CB.handler "item_search_on_success") (PyVal.dict [])
      PyVal.none],
    Option.some "ItemSearchReq completed successfully."⟩

/-- Claim C4 witness: the theorem at a concrete one-page dispatch. -/
theorem c4_exactly_one_callback_witness :
    wellPaired c4Run.events = true ∧
    countSucc c4Run.events + countErr c4Run.events = countNet c4Run.events :=
  c4_exactly_one_callback envOnePage (PyVal.dict []) "ItemSearchReq"
    (CB.handler "item_search_on_success") "POST" "Item" c4Run rfl

/-- Claim C5 (confirmed): for every call that passes the configuration
check and returns a value, that value is exactly the string formed of the
route key followed by " completed successfully." — it depends only on the
route key, carrying no response data; all other effects are the trace's
callback events. -/
theorem c5_return_message (env : Env) (rd : PyVal) (rk : String) (hf : CB)
    (m dt : String) (data c b dn payload : PyVal) (r : RunResult)
    (msg : String)
    (hdata : resolveData env rd = Except.ok data)
    (hids : resolveIds env data = Except.ok (c, b, dn))
    (hstrip : stripForGet m data = Except.ok payload)
    (hcfg : configOk env rk rd c b = true)
    (hrun : process_request env rd rk hf m dt = Except.ok r)
    (hret : r.retVal = Option.some msg) :
    msg = rk ++ " completed successfully." := by
  rw [run_with_config env rd rk hf m dt data c b dn payload hdata hids
    hstrip hcfg] at hrun
  injection hrun with hr
  rw [← hr] at hret
  cases hcomp : (paginate hf dt m payload dn env.pages
      (initialUrl env rk rd c b)).2 with
  | false =>
    simp [hcomp] at hret
  | true =>
    simp [hcomp] at hret
    exact hret.symm

/-- Claim C5 witness: the theorem at a concrete dispatch returning the
completion message for route key "ItemSearchReq". -/
theorem c5_return_message_witness :
    process_request envOnePage (PyVal.dict []) "ItemSearchReq"
      (CB.handler "item_search_on_success") "POST" "Item" =
      Except.ok ⟨[Event.netCall (PyVal.str "https://slade.example/items")
          "POST" (PyVal.dict []),
        Event.successCall (CB.handler "item_search_on_success")
          (PyVal.dict []) PyVal.none],
        Option.some "ItemSearchReq completed successfully."⟩ ∧
    "ItemSearchReq completed successfully." =
      "ItemSearchReq" ++ " completed successfully." :=
  ⟨rfl, c5_return_message envOnePage (PyVal.dict []) "ItemSearchReq"
    (CB.handler "item_search_on_success") "POST" "Item" (PyVal.dict [])
    (PyVal.str "DefaultCo") (PyVal.str "BR1") PyVal.none (PyVal.dict [])
    ⟨[Event.netCall (PyVal.str "https://slade.example/items") "POST"
        (PyVal.dict []),
      Event.successCall (CB.handler "item_search_on_success")
        (PyVal.dict []) PyVal.none],
      Option.some "ItemSearchReq completed successfully."⟩
    "ItemSearchReq completed successfully." rfl rfl rfl rfl rfl rfl⟩

/-- Claim C6 (confirmed): in every returning dispatch, any error-callback
invocation is the final event of the trace (no further page is fetched),
it uses the module's error handler with the call's doctype and document
identifier, and its body is one of the server's error bodies; when the
first page fails, the trace is exactly one network call followed by one
error callback carrying the raw error body, the attempted URL, the
doctype and the document identifier. -/
theorem c6_error_handling (env : Env) (rd : PyVal) (rk : String) (hf : CB)
    (m dt : String) (data c b dn payload : PyVal) (r : RunResult)
    (hdata : resolveData env rd = Except.ok data)
    (hids : resolveIds env data = Except.ok (c, b, dn))
    (hstrip : stripForGet m data = Except.ok payload)
    (hcfg : configOk env rk rd c b = true)
    (hrun : process_request env rd rk hf m dt = Except.ok r) :
    errAtEndOnly r.events = true ∧
    (∀ cb bb u d n, Event.errCall cb bb u d n ∈ r.events →
      cb = CB.on_slade_error ∧ d = dt ∧ n = dn ∧
        HttpOutcome.err bb ∈ env.pages) ∧
    (∀ bb rest, env.pages = HttpOutcome.err bb :: rest →
      r.events = [Event.netCall (initialUrl env rk rd c b) m payload,
        Event.errCall CB.on_slade_error bb (initialUrl env rk rd c b) dt
          dn]) := by
  rw [run_with_config env rd rk hf m dt data c b dn payload hdata hids
    hstrip hcfg] at hrun
  injection hrun with hr
  refine ⟨?_, ?_, ?_⟩
  · rw [← hr]
    exact paginate_err_last hf dt m payload dn env.pages _
  · intro cb bb u d n hm
    rw [← hr] at hm
    exact paginate_err_mem hf dt m payload dn env.pages _ cb bb u d n hm
  · intro bb rest hp
    rw [← hr]
    show (paginate hf dt m payload dn env.pages
      (initialUrl env rk rd c b)).1 = _
    rw [hp]
    exact paginate_first_err hf dt m payload dn bb rest _
      (truthy_initialUrl env rk rd c b hcfg)

/-- The run of `process_request` on `envErrPage` with an empty POST
payload: one page attempted, one error callback, loop exits. -/
def c6Run : RunResult :=
  ⟨[Event.netCall (PyVal.str "https://slade.example/items") "POST"
      (PyVal.dict []),
    Event.errCall CB.on_slade_error errBody
      (PyVal.str "https://slade.example/items") "Item" PyVal.none],
    Option.some "ItemSearchReq completed successfully."⟩

/-- Claim C6 witness: the theorem at a concrete dispatch whose single
page fails with a 400-style body. -/
theorem c6_error_handling_witness :
    errAtEndOnly c6Run.events = true ∧
    (∀ cb bb u d n, Event.errCall cb bb u d n ∈ c6Run.events →
      cb = CB.on_slade_error ∧ d = "Item" ∧ n = PyVal.none ∧
        HttpOutcome.err bb ∈ envErrPage.pages) ∧
    (∀ bb rest, envErrPage.pages = HttpOutcome.err bb :: rest →
      c6Run.events = [Event.netCall (initialUrl envErrPage "ItemSearchReq"
          (PyVal.dict []) (PyVal.str "DefaultCo") (PyVal.str "BR1")) "POST"
          (PyVal.dict []),
        Event.errCall CB.on_slade_error bb
          (initialUrl envErrPage "ItemSearchReq" (PyVal.dict [])
            (PyVal.str "DefaultCo") (PyVal.str "BR1")) "Item"
          PyVal.none]) :=
  c6_error_handling envErrPage (PyVal.dict []) "ItemSearchReq"
    (CB.handler "item_search_on_success") "POST" "Item" (PyVal.dict [])
    (PyVal.str "DefaultCo") (PyVal.str "BR1") PyVal.none (PyVal.dict [])
    c6Run rfl rfl rfl rfl rfl

/-- Claim C7 counterexample: a dispatch in which the error callback that
fires is the module-level `on_slade_error`, which differs from the
caller's supplied handler and is not a parameter of `process_request`;
the error handler used is chosen by the dispatcher, not the caller. -/
theorem c7_counterexample :
    process_request envErrPage (PyVal.dict []) "ItemSearchReq"
      (CB.handler "imported_item_submission_on_success") "POST" "Item" =
      Except.ok ⟨[Event.netCall (PyVal.str "https://slade.example/items")
          "POST" (PyVal.dict []),
        Event.errCall CB.on_slade_error errBody
          (PyVal.str "https://slade.example/items") "Item" PyVal.none],
        Option.some "ItemSearchReq completed successfully."⟩ ∧
    CB.on_slade_error ≠ CB.handler "imported_item_submission_on_success" :=
  ⟨rfl, by decide⟩

/-- Claim C7 (amended): in every returning dispatch, every success
callback actually invoked is the caller-supplied handler function, while
every error callback actually invoked is the module-level
`on_slade_error` hard-wired by `process_request` (apis.py line 134) —
the caller supplies only the success handler. -/
theorem c7_fixed_error_callback (env : Env) (rd : PyVal) (rk : String)
    (hf : CB) (m dt : String) (r : RunResult)
    (hrun : process_request env rd rk hf m dt = Except.ok r) :
    (∀ cb bb n, Event.successCall cb bb n ∈ r.events → cb = hf) ∧
    (∀ cb bb u d n, Event.errCall cb bb u d n ∈ r.events →
      cb = CB.on_slade_error) := by
  rcases run_events_shape env rd rk hf m dt r hrun with h | ⟨p, dn, url, h⟩
  · rw [h]
    exact ⟨fun cb bb n hm => absurd hm (by simp),
      fun cb bb u d n hm => absurd hm (by simp)⟩
  · rw [h]
    exact ⟨fun cb bb n hm =>
        (paginate_succ_mem hf dt m p dn env.pages url cb bb n hm).1,
      fun cb bb u d n hm =>
        (paginate_err_mem hf dt m p dn env.pages url cb bb u d n hm).1⟩

/-- The run of `process_request` on `envErrPage` with the imported-item
success handler: the error callback that fires is `on_slade_error`. -/
def c7Run : RunResult :=
  ⟨[Event.netCall (PyVal.str "https://slade.example/items") "POST"
      (PyVal.dict []),
    Event.errCall CB.on_slade_error errBody
      (PyVal.str "https://slade.example/items") "Item" PyVal.none],
    Option.some "ItemSearchReq completed successfully."⟩

/-- Claim C7 witness: the amended theorem at a concrete failing
dispatch. -/
theorem c7_fixed_error_callback_witness :
    (∀ cb bb n, Event.successCall cb bb n ∈ c7Run.events →
      cb = CB.handler "imported_item_submission_on_success") ∧
    (∀ cb bb u d n, Event.errCall cb bb u d n ∈ c7Run.events →
      cb = CB.on_slade_error) :=
  c7_fixed_error_callback envErrPage (PyVal.dict []) "ItemSearchReq"
    (CB.handler "imported_item_submission_on_success") "POST" "Item"
    c7Run rfl

/-- Claim C8 (confirmed): for every string argument that is not valid
JSON, `process_request` raises the JSON parse error to its caller — it
neither swallows the error nor returns a failure string. -/
theorem c8_invalid_json_raises (env : Env) (s : String) (rk : String)
    (hf : CB) (m dt : String) (hjson : env.jsonLoads s = Option.none) :
    process_request env (PyVal.str s) rk hf m dt =
      Except.error PyErr.jsonDecodeError := by
  unfold process_request
  simp [resolveData, hjson]

/-- Claim C8 witness: the theorem at a concrete non-JSON string under an
environment whose parser rejects it. -/
theorem c8_invalid_json_raises_witness :
    envOnePage.jsonLoads "not valid json" = Option.none ∧
    process_request envOnePage (PyVal.str "not valid json") "ItemSearchReq"
      (CB.handler "item_search_on_success") "GET" "Item" =
      Except.error PyErr.jsonDecodeError :=
  ⟨rfl, c8_invalid_json_raises envOnePage "not valid json" "ItemSearchReq"
    (CB.handler "item_search_on_success") "GET" "Item" rfl⟩

/-- Claim C9 (confirmed): for every environment and input,
`update_imported_item_request` raises TypeError before any remote work,
because its call passes the keyword `method`, which is not among the
parameter names of `process_request`. -/
theorem c9_update_imported_item_type_error (env : Env) (rd : PyVal) :
    update_imported_item_request env rd = Except.error PyErr.typeError ∧
    acceptsKeywords process_request_params
      update_imported_item_request_kwargs = false :=
  ⟨rfl, rfl⟩

/-- Claim C10 (confirmed): `process_request` raises on degenerate
payloads instead of returning a message: the empty list falls into the
mapping branch and `.get` on a list raises AttributeError, while a
number, boolean or None leaves the local `data` unassigned so its first
use raises UnboundLocalError. -/
theorem c10_bad_payload_raises (env : Env) (rk : String) (hf : CB)
    (m dt : String) :
    process_request env (PyVal.list []) rk hf m dt =
      Except.error PyErr.attributeError ∧
    (∀ n : Int, process_request env (PyVal.num n) rk hf m dt =
      Except.error PyErr.unboundLocalError) ∧
    (∀ bl : Bool, process_request env (PyVal.bool bl) rk hf m dt =
      Except.error PyErr.unboundLocalError) ∧
    process_request env PyVal.none rk hf m dt =
      Except.error PyErr.unboundLocalError :=
  ⟨rfl, fun _ => rfl, fun _ => rfl, rfl⟩
